import Mathlib

/-!
Shallow embedding of the `ozen-web` helper scripts
(`scripts/create-iframe.py`, `scripts/create-data-url.py`).

Filesystem paths are modelled at the level of Python's `Path.parts`:
a resolved absolute POSIX path is a list of segments whose first
element is the root segment "/".  `Path.resolve()` itself (cwd and
symlink handling) is abstracted as an oracle `Fs.resolve`, since the
relative-path algorithm only ever looks at the resolved parts.
-/

namespace OzenWeb

/-- The `for a, b in zip(audio_parts, viewer_parts): if a == b: common_length += 1
else: break` loop of `calculate_relative_path` (create-iframe.py lines 51-57):
the number of leading segments on which the two part lists agree. -/
def commonLength : List String → List String → Nat
  | a :: as, b :: bs => if a = b then commonLength as bs + 1 else 0
  | _, _ => 0

/-- Core of `calculate_relative_path` (create-iframe.py lines 42-64), at the
level of path segments.  `audio_parts` are the parts of the resolved audio
file, `viewer_dir_parts` the parts of the resolved viewer file's parent
directory.  `Path.relative_to` succeeds exactly when `viewer_dir_parts` is a
prefix of `audio_parts`; otherwise the except-branch builds
`['..'] * ups + downs`. -/
def calc_rel_parts (audio_parts viewer_dir_parts : List String) : List String :=
  if viewer_dir_parts <+: audio_parts then
    audio_parts.drop viewer_dir_parts.length
  else
    let common_length := commonLength audio_parts viewer_dir_parts
    let ups := viewer_dir_parts.length - common_length
    let downs := audio_parts.drop common_length
    List.replicate ups ".." ++ downs

/-- `'/'.join(parts)`, which on POSIX is also `str(Path(*parts))` for a
relative path with at least one segment. -/
def join_parts : List String → String
  | [] => ""
  | [p] => p
  | p :: q :: ps => p ++ "/" ++ join_parts (q :: ps)

/-- `calculate_relative_path` as a string, taking the parts of the resolved
audio file and of the resolved viewer file.  `viewer_dir = viewer_file.parent`
drops the last part.  When the audio path equals the viewer directory,
`Path.relative_to` yields `Path('.')` whose `str` is `"."`; in every other
case the result is the `'/'`-joined segment list. -/
def calculate_relative_path (audio_parts viewer_file_parts : List String) : String :=
  let viewer_dir := viewer_file_parts.dropLast
  let parts := calc_rel_parts audio_parts viewer_dir
  if parts = [] then "." else join_parts parts

/-- Resolution of a relative segment list against a base directory:
append segments one by one, a `".."` segment removing the last segment of
the base (the normalization of parent-directory markers used to state the
round-trip property). -/
def resolve_against : List String → List String → List String
  | dir, [] => dir
  | dir, seg :: rest =>
    if seg = ".." then resolve_against dir.dropLast rest
    else resolve_against (dir ++ [seg]) rest

/-- Height option of create-iframe.py: `int(height_arg)` when that
succeeds, the raw string otherwise. -/
inductive HeightArg
  | num : Int → HeightArg
  | raw : String → HeightArg
deriving DecidableEq

def digits_to_nat (cs : List Char) : Option Nat :=
  if cs = [] then none
  else if cs.all Char.isDigit then
    some (cs.foldl (fun a c => a * 10 + (c.toNat - 48)) 0)
  else none

/-- Python `int(s)` on the strings this script can meet: optional
surrounding whitespace, optional sign, decimal digits.  (Digit-group
underscores and non-ASCII digits, which CPython also accepts, cannot occur
in a sensible `--height` argument and are not modelled.) -/
def py_int (s : String) : Option Int :=
  match s.trim.toList with
  | '-' :: rest => (digits_to_nat rest).map (fun n => -(n : Int))
  | '+' :: rest => (digits_to_nat rest).map (fun n => (n : Int))
  | cs => (digits_to_nat cs).map (fun n => (n : Int))

/-- `str(height)`: `str` of the int, or the string kept as-is. -/
def height_str : HeightArg → String
  | HeightArg.num n => toString n
  | HeightArg.raw s => s

/-- The three optional settings of create-iframe.py's `__main__`. -/
structure Opts where
  overlays : String
  viewer_url : String
  height : HeightArg
deriving DecidableEq

def default_opts : Opts := ⟨"pitch,formants", "./ozen-web/viewer.html", HeightArg.num 600⟩

inductive ParseResult
  | ok : Opts → ParseResult
  | err : String → ParseResult
deriving DecidableEq

/-- The argument loop of create-iframe.py lines 118-138: recognized flags
consume their value when one is present; any other argument (including a
recognized flag with no following value) stops the program. -/
def parse_args : List String → Opts → ParseResult
  | [], o => ParseResult.ok o
  | "--overlays" :: v :: rest, o => parse_args rest ⟨v, o.viewer_url, o.height⟩
  | "--viewer-url" :: v :: rest, o => parse_args rest ⟨o.overlays, v, o.height⟩
  | "--height" :: v :: rest, o =>
    parse_args rest ⟨o.overlays, o.viewer_url,
      match py_int v with
      | some n => HeightArg.num n
      | none => HeightArg.raw v⟩
  | a :: _, _ => ParseResult.err a

def always_safe_char (c : Char) : Bool :=
  c.isAlpha || c.isDigit || c = '_' || c = '.' || c = '-' || c = '~'

def hex_digit (n : Nat) : Char :=
  if n < 10 then Char.ofNat (48 + n) else Char.ofNat (55 + n)

def utf8_bytes_of (n : Nat) : List Nat :=
  if n < 128 then [n]
  else if n < 2048 then [192 + n / 64, 128 + n % 64]
  else if n < 65536 then [224 + n / 4096, 128 + n / 64 % 64, 128 + n % 64]
  else [240 + n / 262144, 128 + n / 4096 % 64, 128 + n / 64 % 64, 128 + n % 64]

def percent_byte (b : Nat) : String :=
  String.mk ['%', hex_digit (b / 16), hex_digit (b % 16)]

/-- `urllib.parse.quote(s, safe=safe)`: ASCII letters, digits and `_.-~`
are always kept, the characters of `safe` are kept, every other character
is percent-encoded byte-by-byte in UTF-8 with uppercase hex digits. -/
def quote (s : String) (safe : String) : String :=
  String.join (s.toList.map (fun c =>
    if always_safe_char c || safe.toList.contains c then String.singleton c
    else String.join ((utf8_bytes_of c.toNat).map percent_byte)))

/-- Oracle for the pieces of the environment the scripts consult:
`Path.exists`, `Path.resolve()` (as resolved parts), `stat().st_size`
in bytes, and the file's bytes for `open(audio_file, 'rb').read()`. -/
structure Fs where
  exists_file : String → Bool
  resolve : String → List String
  size_bytes : String → Nat
  content : String → List Nat

def iframe_src (viewer_url encoded_path overlays : String) : String :=
  viewer_url ++ "?audio=" ++ encoded_path ++ "&overlays=" ++ overlays

/-- The f-string of create-iframe.py lines 94-101. -/
def iframe_html (viewer_url encoded_path overlays height_string : String) : String :=
  "<iframe\n  data-external=\"1\"\n  src=\"" ++
    iframe_src viewer_url encoded_path overlays ++
    "\"\n  width=\"100%\"\n  height=\"" ++ height_string ++
    "\"\n  frameborder=\"0\"\n  style=\"border: 1px solid #ddd; border-radius: 4px;\">\n</iframe>"

/-- `create_embedded_viewer` of create-iframe.py: raises
`FileNotFoundError` (modelled as `Except.error` carrying the exception's
message) when the audio file does not exist, otherwise returns the iframe
HTML built from the URL-encoded relative path. -/
def create_embedded_viewer (fs : Fs) (audio_path overlays viewer_url : String)
    (height : HeightArg) : Except String String :=
  if !(fs.exists_file audio_path) then
    Except.error ("Audio file not found: " ++ audio_path)
  else
    Except.ok (iframe_html viewer_url
      (quote (calculate_relative_path (fs.resolve audio_path) (fs.resolve viewer_url)) "/")
      overlays (height_str height))

/-- Observable outcome of one script run: the lines printed to stdout, the
lines printed to stderr, and the process exit status (0 when the script
falls off the end of `__main__`). -/
structure ProgResult where
  stdout_lines : List String
  stderr_lines : List String
  exit_status : Nat
deriving DecidableEq

def usage_lines_iframe : List String :=
  ["Usage: python create-iframe.py <audio-file> [--overlays pitch,formants] [--viewer-url ./ozen-web/viewer.html] [--height 600]",
   "\nExamples:",
   "  python create-iframe.py audio.wav --overlays pitch,formants,hnr --height 800",
   "  python create-iframe.py audio.wav --overlays pitch,formants --height 80%"]

/-- `__main__` of create-iframe.py over `sys.argv` (element 0 is the
program name).  Usage help goes to stdout, error messages to stderr. -/
def main_iframe (fs : Fs) (argv : List String) : ProgResult :=
  match argv with
  | _ :: audio_path :: rest =>
    match parse_args rest default_opts with
    | ParseResult.err a => ⟨[], ["Unknown argument: " ++ a], 1⟩
    | ParseResult.ok o =>
      match create_embedded_viewer fs audio_path o.overlays o.viewer_url o.height with
      | Except.ok html => ⟨[html], [], 0⟩
      | Except.error e => ⟨[], ["Error: " ++ e], 1⟩
  | _ => ⟨usage_lines_iframe, [], 1⟩

def b64_char (n : Nat) : Char :=
  if n < 26 then Char.ofNat (65 + n)
  else if n < 52 then Char.ofNat (97 + (n - 26))
  else if n < 62 then Char.ofNat (48 + (n - 52))
  else if n = 62 then '+'
  else '/'

/-- `base64.b64encode` on a byte list, as an ASCII string. -/
def b64_encode : List Nat → String
  | [] => ""
  | [a] => String.mk [b64_char (a / 4), b64_char (a % 4 * 16), '=', '=']
  | [a, b] => String.mk [b64_char (a / 4), b64_char (a % 4 * 16 + b / 16),
      b64_char (b % 16 * 4), '=']
  | a :: b :: c :: rest =>
    String.mk [b64_char (a / 4), b64_char (a % 4 * 16 + b / 16),
      b64_char (b % 16 * 4 + c / 64), b64_char (c % 64)] ++ b64_encode rest

def round_half_even (num den : Nat) : Nat :=
  if 2 * (num % den) < den then num / den
  else if den < 2 * (num % den) then num / den + 1
  else if num / den % 2 = 0 then num / den else num / den + 1

/-- The `f"{size_mb:.1f}"` formatting of `st_size / (1024*1024)`: for file
sizes below 2^53 that double is the exact rational, and `:.1f` rounds it
to one decimal with ties to even. -/
def format_mb_1f (size_bytes : Nat) : String :=
  toString (round_half_even (size_bytes * 10) 1048576 / 10) ++ "." ++
    toString (round_half_even (size_bytes * 10) 1048576 % 10)

/-- The f-string of create-data-url.py lines 46-52 (fixed height 600, no
`data-external` attribute). -/
def data_iframe_html (viewer_url encoded overlays : String) : String :=
  "<iframe\n  src=\"" ++ iframe_src viewer_url encoded overlays ++
    "\"\n  width=\"100%\"\n  height=\"600\"\n  frameborder=\"0\"\n  style=\"border: 1px solid #ddd; border-radius: 4px;\">\n</iframe>"

/-- `create_embedded_viewer` of create-data-url.py: the Except value is
(warning lines printed to stderr, iframe HTML).  The size test
`size_mb > 1.5` on the exact double `st_size / 2^20` is
`2 * st_size > 3 * 2^20`. -/
def create_embedded_viewer_data (fs : Fs) (audio_path overlays viewer_url : String) :
    Except String (List String × String) :=
  if !(fs.exists_file audio_path) then
    Except.error ("Audio file not found: " ++ audio_path)
  else
    let warn :=
      if 3145728 < 2 * fs.size_bytes audio_path then
        ["Warning: File is " ++ format_mb_1f (fs.size_bytes audio_path) ++
           "MB. Data URLs are limited to ~1.5MB.",
         "Consider using a remote URL instead."]
      else []
    Except.ok (warn, data_iframe_html viewer_url
      (quote ("data:audio/wav;base64," ++ b64_encode (fs.content audio_path)) "") overlays)

inductive DataParse
  | ok : String → String → DataParse
  | err : String → DataParse
deriving DecidableEq

/-- The argument loop of create-data-url.py lines 65-76. -/
def parse_args_data : List String → String → String → DataParse
  | [], ov, vu => DataParse.ok ov vu
  | "--overlays" :: v :: rest, _, vu => parse_args_data rest v vu
  | "--viewer-url" :: v :: rest, ov, _ => parse_args_data rest ov v
  | a :: _, _, _ => DataParse.err a

def usage_line_data : String :=
  "Usage: python create-data-url.py <audio-file> [--overlays pitch,formants] [--viewer-url ./ozen-web/viewer.html]"

/-- `__main__` of create-data-url.py (defaults: overlays `pitch,formants`,
viewer URL `viewer.html`). -/
def main_data (fs : Fs) (argv : List String) : ProgResult :=
  match argv with
  | _ :: audio_path :: rest =>
    match parse_args_data rest "pitch,formants" "viewer.html" with
    | DataParse.err a => ⟨[], ["Unknown argument: " ++ a], 1⟩
    | DataParse.ok ov vu =>
      match create_embedded_viewer_data fs audio_path ov vu with
      | Except.ok wh => ⟨[wh.2], wh.1, 0⟩
      | Except.error e => ⟨[], ["Error: " ++ e], 1⟩
  | _ => ⟨[usage_line_data], [], 1⟩

/-- A filesystem oracle on which no file exists. -/
def fs_missing : Fs := ⟨fun _ => false, fun _ => [], fun _ => 0, fun _ => []⟩

/-- A filesystem oracle on which every file exists: audio paths resolve
under /data, everything else under /site; files are 2 MiB big with three
content bytes (the content oracle is independent of the size oracle). -/
def fs_demo : Fs :=
  ⟨fun _ => true,
   fun p => if p = "a.wav" then ["/", "data", "a.wav"] else ["/", "site", "viewer.html"],
   fun _ => 2097152,
   fun _ => [0, 1, 2]⟩

theorem commonLength_le_right (a b : List String) : commonLength a b ≤ b.length := by
  induction a generalizing b with
  | nil => simp [commonLength]
  | cons x as ih =>
    cases b with
    | nil => simp [commonLength]
    | cons y bs =>
      by_cases h : x = y
      · simpa [commonLength, h] using ih bs
      · simp [commonLength, h]

theorem take_commonLength (a b : List String) :
    a.take (commonLength a b) = b.take (commonLength a b) := by
  induction a generalizing b with
  | nil => simp [commonLength]
  | cons x as ih =>
    cases b with
    | nil => simp [commonLength]
    | cons y bs =>
      by_cases h : x = y
      · simp [commonLength, h, ih bs]
      · simp [commonLength, h]

theorem commonLength_maximal (a b : List String) (n : Nat)
    (ha : n ≤ a.length) (hb : n ≤ b.length) (h : a.take n = b.take n) :
    n ≤ commonLength a b := by
  induction n generalizing a b with
  | zero => exact Nat.zero_le _
  | succ m ih =>
    cases a with
    | nil => simp at ha
    | cons x as =>
      cases b with
      | nil => simp at hb
      | cons y bs =>
        simp only [List.take_succ_cons, List.cons.injEq] at h
        obtain ⟨rfl, h2⟩ := h
        have hm := ih as bs (by simpa using ha) (by simpa using hb) h2
        have hcl : commonLength (x :: as) (x :: bs) = commonLength as bs + 1 := by
          simp [commonLength]
        omega

theorem commonLength_lt_of_not_prefix (a b : List String) (h : ¬ (b <+: a)) :
    commonLength a b < b.length := by
  rcases Nat.lt_or_ge (commonLength a b) b.length with hlt | hge
  · exact hlt
  · exfalso
    apply h
    have heq : commonLength a b = b.length :=
      le_antisymm (commonLength_le_right a b) hge
    have ht := take_commonLength a b
    rw [heq, List.take_length] at ht
    rw [List.prefix_iff_eq_take]
    exact ht.symm

theorem commonLength_append (d l₁ l₂ : List String) :
    commonLength (d ++ l₁) (d ++ l₂) = d.length + commonLength l₁ l₂ := by
  induction d with
  | nil => simp
  | cons x ds ih =>
    have hcl : commonLength (x :: (ds ++ l₁)) (x :: (ds ++ l₂)) =
        commonLength (ds ++ l₁) (ds ++ l₂) + 1 := by
      simp [commonLength]
    simp only [List.cons_append, hcl, ih, List.length_cons]
    omega

theorem resolve_against_no_up (l : List String) (d : List String) (h : ".." ∉ l) :
    resolve_against d l = d ++ l := by
  induction l generalizing d with
  | nil => simp [resolve_against]
  | cons s rest ih =>
    have h1 : s ≠ ".." := fun e => h (by rw [e]; exact List.mem_cons_self _ _)
    have h2 : ".." ∉ rest := fun hm => h (List.mem_cons_of_mem _ hm)
    rw [resolve_against, if_neg h1, ih _ h2]
    simp

theorem resolve_against_replicate_up (n : Nat) (d l : List String) :
    resolve_against d (List.replicate n ".." ++ l) =
      resolve_against (d.take (d.length - n)) l := by
  induction n generalizing d with
  | zero => simp
  | succ m ih =>
    rw [List.replicate_succ, List.cons_append, resolve_against, if_pos rfl, ih]
    congr 1
    rw [List.dropLast_eq_take, List.take_take, List.length_take]
    congr 1
    omega

/-- C1: resolving the relative path returned by `calculate_relative_path`
against the viewer file's containing directory (appending the segments and
normalizing parent-directory markers) yields exactly the original absolute
audio path.  The only hypothesis is that the audio path is in resolved
(normalized) form, i.e. contains no `".."` segment. -/
theorem calculate_relative_path_round_trip (audio_parts viewer_file_parts : List String)
    (h : ".." ∉ audio_parts) :
    resolve_against viewer_file_parts.dropLast
      (calc_rel_parts audio_parts viewer_file_parts.dropLast) = audio_parts := by
  by_cases hp : viewer_file_parts.dropLast <+: audio_parts
  · rw [calc_rel_parts, if_pos hp]
    obtain ⟨t, ht⟩ := hp
    rw [← ht, List.drop_left]
    rw [resolve_against_no_up t _ (fun hm => h (ht ▸ List.mem_append_right _ hm))]
  · have hc : commonLength audio_parts viewer_file_parts.dropLast <
        viewer_file_parts.dropLast.length :=
      commonLength_lt_of_not_prefix _ _ hp
    simp only [calc_rel_parts, if_neg hp]
    rw [resolve_against_replicate_up, Nat.sub_sub_self (le_of_lt hc),
      ← take_commonLength,
      resolve_against_no_up _ _ (fun hm => h (List.mem_of_mem_drop hm)),
      List.take_append_drop]

theorem calculate_relative_path_round_trip_witness :
    (".." ∉ (["/", "a", "x", "f.wav"] : List String)) ∧
    resolve_against (["/", "a", "y", "v.html"] : List String).dropLast
      (calc_rel_parts ["/", "a", "x", "f.wav"]
        (["/", "a", "y", "v.html"] : List String).dropLast) =
      ["/", "a", "x", "f.wav"] :=
  ⟨by decide, calculate_relative_path_round_trip _ _ (by decide)⟩

/-- C2: for an audio file and a viewer file in the same directory `d`,
`calculate_relative_path` returns exactly the audio file's name: no
directory segments and no parent-directory markers. -/
theorem same_directory_yields_filename (d : List String) (aname vname : String) :
    calculate_relative_path (d ++ [aname]) (d ++ [vname]) = aname := by
  have hpre : d <+: d ++ [aname] := ⟨[aname], rfl⟩
  simp only [calculate_relative_path, List.dropLast_concat, calc_rel_parts, if_pos hpre,
    List.drop_left]
  simp [join_parts]

/-- C3: when the resolved audio path lies inside the subtree of the viewer's
containing directory, the result is the audio path relative to that
directory (appending it to the directory restores the audio path) and it
contains no parent-directory marker. -/
theorem inside_subtree_direct (audio_parts viewer_file_parts : List String)
    (hpre : viewer_file_parts.dropLast <+: audio_parts)
    (hnd : ".." ∉ audio_parts) :
    viewer_file_parts.dropLast ++ calc_rel_parts audio_parts viewer_file_parts.dropLast =
      audio_parts ∧
    ".." ∉ calc_rel_parts audio_parts viewer_file_parts.dropLast := by
  rw [calc_rel_parts, if_pos hpre]
  refine ⟨?_, fun hm => hnd (List.mem_of_mem_drop hm)⟩
  obtain ⟨t, ht⟩ := hpre
  rw [← ht, List.drop_left]

theorem inside_subtree_direct_witness :
    ((["/", "viewer.html"] : List String).dropLast <+: ["/", "a", "b.wav"]) ∧
    (".." ∉ (["/", "a", "b.wav"] : List String)) ∧
    ((["/", "viewer.html"] : List String).dropLast ++
        calc_rel_parts ["/", "a", "b.wav"] (["/", "viewer.html"] : List String).dropLast =
      ["/", "a", "b.wav"] ∧
    ".." ∉ calc_rel_parts ["/", "a", "b.wav"] (["/", "viewer.html"] : List String).dropLast) :=
  ⟨by decide, by decide, inside_subtree_direct _ _ (by decide) (by decide)⟩

/-- C4: when the resolved audio path is not inside the viewer directory's
subtree, the algorithm determines the longest common prefix
(`commonLength` agrees on both lists and is maximal among agreeing prefix
lengths) and returns one `".."` per remaining viewer-directory segment
followed by the audio segments beyond the common prefix; in particular with
no common ancestor at all (`commonLength = 0`) every viewer-directory
segment becomes a `".."` and the full audio path is appended. -/
theorem outside_subtree_common_ancestor (audio_parts viewer_file_parts : List String)
    (hnp : ¬ (viewer_file_parts.dropLast <+: audio_parts)) :
    (audio_parts.take (commonLength audio_parts viewer_file_parts.dropLast) =
      viewer_file_parts.dropLast.take (commonLength audio_parts viewer_file_parts.dropLast)) ∧
    (∀ n, n ≤ audio_parts.length → n ≤ viewer_file_parts.dropLast.length →
      audio_parts.take n = viewer_file_parts.dropLast.take n →
      n ≤ commonLength audio_parts viewer_file_parts.dropLast) ∧
    calc_rel_parts audio_parts viewer_file_parts.dropLast =
      List.replicate (viewer_file_parts.dropLast.length -
          commonLength audio_parts viewer_file_parts.dropLast) ".." ++
        audio_parts.drop (commonLength audio_parts viewer_file_parts.dropLast) ∧
    (commonLength audio_parts viewer_file_parts.dropLast = 0 →
      calc_rel_parts audio_parts viewer_file_parts.dropLast =
        List.replicate viewer_file_parts.dropLast.length ".." ++ audio_parts) := by
  refine ⟨take_commonLength _ _,
    fun n h1 h2 h3 => commonLength_maximal _ _ n h1 h2 h3, ?_, ?_⟩
  · simp only [calc_rel_parts, if_neg hnp]
  · intro h0
    simp only [calc_rel_parts, if_neg hnp, h0, Nat.sub_zero, List.drop_zero]

theorem outside_subtree_common_ancestor_witness :
    (¬ ((["/", "y", "v", "viewer.html"] : List String).dropLast <+: ["/", "x", "a.wav"])) ∧
    calc_rel_parts ["/", "x", "a.wav"] (["/", "y", "v", "viewer.html"] : List String).dropLast =
      List.replicate ((["/", "y", "v", "viewer.html"] : List String).dropLast.length -
          commonLength ["/", "x", "a.wav"]
            (["/", "y", "v", "viewer.html"] : List String).dropLast) ".." ++
        (["/", "x", "a.wav"] : List String).drop
          (commonLength ["/", "x", "a.wav"]
            (["/", "y", "v", "viewer.html"] : List String).dropLast) :=
  ⟨by decide, (outside_subtree_common_ancestor ["/", "x", "a.wav"]
    ["/", "y", "v", "viewer.html"] (by decide)).2.2.1⟩

/-- C5: for an audio file exactly one directory above the viewer's
containing directory (audio in `d`, viewer directory `d ++ [seg]`), the
result contains exactly one parent-directory marker.  The hypotheses state
that the audio file name is a genuine file name of the resolved path:
distinct from the sub-directory's name and not itself `".."`. -/
theorem one_dir_above_single_parent_marker (d : List String) (seg aname vname : String)
    (hne : aname ≠ seg) (hnd : aname ≠ "..") :
    List.count ".." (calc_rel_parts (d ++ [aname]) ((d ++ [seg, vname]).dropLast)) = 1 := by
  have hdl : (d ++ [seg, vname]).dropLast = d ++ [seg] := by
    rw [show d ++ [seg, vname] = (d ++ [seg]) ++ [vname] by simp, List.dropLast_concat]
  rw [hdl]
  have hnp : ¬ ((d ++ [seg]) <+: (d ++ [aname])) := by
    rw [List.prefix_append_right_inj]
    intro hpre
    have hlen : ([seg] : List String).length = ([aname] : List String).length := by simp
    have := hpre.eq_of_length hlen
    simp only [List.cons.injEq, and_true] at this
    exact hne this.symm
  have hc : commonLength (d ++ [aname]) (d ++ [seg]) = d.length := by
    rw [commonLength_append]
    simp [commonLength, hne]
  simp only [calc_rel_parts, if_neg hnp, hc, List.drop_left, List.length_append,
    List.length_cons, List.length_nil]
  have hups : d.length + (0 + 1) - d.length = 1 := by omega
  rw [hups]
  simp [List.count_cons, hnd]

theorem one_dir_above_single_parent_marker_witness :
    (("a.wav" : String) ≠ "v") ∧ (("a.wav" : String) ≠ "..") ∧
    List.count ".."
      (calc_rel_parts (["/", "p"] ++ ["a.wav"])
        (((["/", "p"] ++ ["v", "viewer.html"]) : List String).dropLast)) = 1 :=
  ⟨by decide, by decide,
    one_dir_above_single_parent_marker ["/", "p"] "v" "a.wav" "viewer.html"
      (by decide) (by decide)⟩

theorem join_parts_data_head (s : String) (rest : List String) (hs : s ≠ "") :
    (join_parts (s :: rest)).data.head? = s.data.head? := by
  have hsd : s.data ≠ [] := by
    intro e
    apply hs
    exact String.ext (by rw [e])
  cases rest with
  | nil => rfl
  | cons q ps =>
    show ((s ++ "/") ++ join_parts (q :: ps)).data.head? = _
    rw [String.data_append, List.head?_append_of_ne_nil _ (by
      rw [String.data_append]; exact fun e => hsd (List.append_eq_nil.mp e).1)]
    rw [String.data_append, List.head?_append_of_ne_nil _ hsd]

theorem join_parts_dotdot_data (l : List String) :
    ∃ t, (join_parts (".." :: l)).data = '.' :: '.' :: t := by
  cases l with
  | nil => exact ⟨[], rfl⟩
  | cons q ps =>
    refine ⟨'/' :: (join_parts (q :: ps)).data, ?_⟩
    show ((".." ++ "/") ++ join_parts (q :: ps)).data = _
    rw [String.data_append]
    rfl

/-- C6: with options that parse and a missing audio file, create-iframe.py
prints the file-not-found error message to stderr, writes nothing to
stdout and exits with status 1. -/
theorem missing_file_error (fs : Fs) (prog audio_path : String) (rest : List String)
    (o : Opts) (hp : parse_args rest default_opts = ParseResult.ok o)
    (hmiss : fs.exists_file audio_path = false) :
    main_iframe fs (prog :: audio_path :: rest) =
      ⟨[], ["Error: Audio file not found: " ++ audio_path], 1⟩ := by
  simp only [main_iframe, hp, create_embedded_viewer, hmiss, Bool.not_false, if_true]
  rw [show ("Error: Audio file not found: " : String) = "Error: " ++ "Audio file not found: "
    from rfl, String.append_assoc]

theorem missing_file_error_witness :
    parse_args [] default_opts = ParseResult.ok default_opts ∧
    fs_missing.exists_file "a.wav" = false ∧
    main_iframe fs_missing ["create-iframe.py", "a.wav"] =
      ⟨[], ["Error: Audio file not found: " ++ "a.wav"], 1⟩ :=
  ⟨rfl, rfl, missing_file_error fs_missing "create-iframe.py" "a.wav" [] default_opts rfl rfl⟩

/-- C7 counterexample: with the unrecognized flag `--bogus`,
create-iframe.py prints `Unknown argument: --bogus` to stderr and exits 1,
but no printed line is a usage message (none begins with "Usage"), so the
claim that a usage message is printed fails. -/
theorem unknown_flag_prints_no_usage :
    main_iframe fs_demo ["create-iframe.py", "a.wav", "--bogus"] =
      ⟨[], ["Unknown argument: --bogus"], 1⟩ ∧
    ((main_iframe fs_demo ["create-iframe.py", "a.wav", "--bogus"]).stdout_lines ++
        (main_iframe fs_demo ["create-iframe.py", "a.wav", "--bogus"]).stderr_lines).all
      (fun l => decide (l.data.take 5 ≠ ("Usage" : String).data)) = true := by
  constructor
  · rfl
  · decide

/-- C7 (amended): an unrecognized argument in flag position makes either
script print `Unknown argument: <flag>` to standard error and exit with
status 1, with nothing written to standard output; no usage text is
printed. -/
theorem unknown_flag_error (fs : Fs) (prog audio_path a : String)
    (rest rest2 : List String)
    (hp : parse_args rest default_opts = ParseResult.err a)
    (hp2 : parse_args_data rest2 "pitch,formants" "viewer.html" = DataParse.err a) :
    main_iframe fs (prog :: audio_path :: rest) =
      ⟨[], ["Unknown argument: " ++ a], 1⟩ ∧
    main_data fs (prog :: audio_path :: rest2) =
      ⟨[], ["Unknown argument: " ++ a], 1⟩ := by
  constructor
  · simp [main_iframe, hp]
  · simp [main_data, hp2]

theorem unknown_flag_error_witness :
    parse_args ["--bogus"] default_opts = ParseResult.err "--bogus" ∧
    parse_args_data ["--bogus"] "pitch,formants" "viewer.html" = DataParse.err "--bogus" ∧
    (main_iframe fs_demo ["create-iframe.py", "a.wav", "--bogus"] =
        ⟨[], ["Unknown argument: " ++ "--bogus"], 1⟩ ∧
      main_data fs_demo ["create-data-url.py", "a.wav", "--bogus"] =
        ⟨[], ["Unknown argument: " ++ "--bogus"], 1⟩) :=
  ⟨rfl, rfl, unknown_flag_error fs_demo "create-iframe.py" "a.wav" "--bogus"
    ["--bogus"] ["--bogus"] rfl rfl⟩

/-- C8: every successful run prints exactly the iframe template whose src
attribute is the viewer URL followed by `?audio=` with the encoded audio
reference and `&overlays=` with the overlays: the URL-encoded relative
path for create-iframe.py, the percent-encoded data URL for
create-data-url.py. -/
theorem success_prints_iframe (fs : Fs) (prog audio_path : String)
    (rest rest2 : List String) (o : Opts) (ov vu : String)
    (hp : parse_args rest default_opts = ParseResult.ok o)
    (hp2 : parse_args_data rest2 "pitch,formants" "viewer.html" = DataParse.ok ov vu)
    (hex : fs.exists_file audio_path = true) :
    main_iframe fs (prog :: audio_path :: rest) =
      ⟨[iframe_html o.viewer_url
          (quote (calculate_relative_path (fs.resolve audio_path) (fs.resolve o.viewer_url)) "/")
          o.overlays (height_str o.height)], [], 0⟩ ∧
    main_data fs (prog :: audio_path :: rest2) =
      ⟨[data_iframe_html vu
          (quote ("data:audio/wav;base64," ++ b64_encode (fs.content audio_path)) "") ov],
        if 3145728 < 2 * fs.size_bytes audio_path then
          ["Warning: File is " ++ format_mb_1f (fs.size_bytes audio_path) ++
             "MB. Data URLs are limited to ~1.5MB.",
           "Consider using a remote URL instead."]
        else [], 0⟩ ∧
    (∀ v e o2, iframe_src v e o2 = v ++ "?audio=" ++ e ++ "&overlays=" ++ o2) := by
  refine ⟨?_, ?_, fun _ _ _ => rfl⟩
  · simp [main_iframe, hp, create_embedded_viewer, hex]
  · simp [main_data, hp2, create_embedded_viewer_data, hex]

theorem success_prints_iframe_witness :
    parse_args [] default_opts = ParseResult.ok default_opts ∧
    parse_args_data [] "pitch,formants" "viewer.html" =
      DataParse.ok "pitch,formants" "viewer.html" ∧
    fs_demo.exists_file "a.wav" = true ∧
    main_iframe fs_demo ["create-iframe.py", "a.wav"] =
      ⟨[iframe_html default_opts.viewer_url
          (quote (calculate_relative_path (fs_demo.resolve "a.wav")
            (fs_demo.resolve default_opts.viewer_url)) "/")
          default_opts.overlays (height_str default_opts.height)], [], 0⟩ :=
  ⟨rfl, rfl, rfl,
    (success_prints_iframe fs_demo "create-iframe.py" "a.wav" [] [] default_opts
      "pitch,formants" "viewer.html" rfl rfl rfl).1⟩

/-- C9: on absolute resolved inputs (root segment "/", file-name segments
nonempty and not starting with the separator) the string returned by
`calculate_relative_path` is never absolute: its first character is never
'/'; and whenever the audio path lies outside the viewer directory's
subtree, the result begins with a ".." segment. -/
theorem result_never_absolute (atail vtail : List String) (hv : vtail ≠ [])
    (hwf : ∀ s ∈ atail, s ≠ "" ∧ s.data.head? ≠ some '/') :
    (calculate_relative_path ("/" :: atail) ("/" :: vtail)).data.head? ≠ some '/' ∧
    (¬ (("/" :: vtail).dropLast <+: ("/" :: atail)) →
      ∃ t, (calculate_relative_path ("/" :: atail) ("/" :: vtail)).data =
        '.' :: '.' :: t) := by
  have hd : ("/" :: vtail).dropLast = "/" :: vtail.dropLast := by
    cases vtail with
    | nil => exact absurd rfl hv
    | cons y ys => rfl
  by_cases hp : ("/" :: vtail).dropLast <+: ("/" :: atail)
  · have hlen : (("/" :: vtail).dropLast).length = vtail.dropLast.length + 1 := by
      rw [hd]; rfl
    have hdrop : calc_rel_parts ("/" :: atail) (("/" :: vtail).dropLast) =
        atail.drop vtail.dropLast.length := by
      rw [calc_rel_parts, if_pos hp, hlen, List.drop_succ_cons]
    refine ⟨?_, fun hnp => absurd hp hnp⟩
    simp only [calculate_relative_path, hdrop]
    cases hcase : atail.drop vtail.dropLast.length with
    | nil => rw [if_pos rfl]; decide
    | cons s rest =>
      rw [if_neg (by simp)]
      have hs : s ∈ atail :=
        List.mem_of_mem_drop (n := vtail.dropLast.length) (by
          rw [hcase]; exact List.mem_cons_self _ _)
      obtain ⟨h1, h2⟩ := hwf s hs
      rw [join_parts_data_head s rest h1]
      exact h2
  · have hc : commonLength ("/" :: atail) (("/" :: vtail).dropLast) <
        (("/" :: vtail).dropLast).length := commonLength_lt_of_not_prefix _ _ hp
    obtain ⟨k, hk⟩ : ∃ k, (("/" :: vtail).dropLast).length -
        commonLength ("/" :: atail) (("/" :: vtail).dropLast) = k + 1 :=
      ⟨(("/" :: vtail).dropLast).length -
        commonLength ("/" :: atail) (("/" :: vtail).dropLast) - 1, by omega⟩
    have hparts : calc_rel_parts ("/" :: atail) (("/" :: vtail).dropLast) =
        ".." :: (List.replicate k ".." ++
          ("/" :: atail).drop (commonLength ("/" :: atail) (("/" :: vtail).dropLast))) := by
      simp only [calc_rel_parts, if_neg hp]
      rw [hk, List.replicate_succ, List.cons_append]
    obtain ⟨t, ht⟩ := join_parts_dotdot_data (List.replicate k ".." ++
      ("/" :: atail).drop (commonLength ("/" :: atail) (("/" :: vtail).dropLast)))
    constructor
    · simp only [calculate_relative_path, hparts]
      rw [if_neg (by simp), ht]
      intro hcontra
      exact absurd (Option.some.inj hcontra) (by decide)
    · intro _
      refine ⟨t, ?_⟩
      simp only [calculate_relative_path, hparts]
      rw [if_neg (by simp)]
      exact ht

theorem result_never_absolute_witness :
    ((["v", "viewer.html"] : List String) ≠ []) ∧
    (∀ s ∈ (["x", "a.wav"] : List String), s ≠ "" ∧ s.data.head? ≠ some '/') ∧
    (calculate_relative_path ("/" :: ["x", "a.wav"])
        ("/" :: ["v", "viewer.html"])).data.head? ≠ some '/' :=
  ⟨by decide, by decide,
    (result_never_absolute ["x", "a.wav"] ["v", "viewer.html"] (by decide) (by decide)).1⟩

/-- C10: in create-data-url.py an audio file larger than 1.5 MB only
triggers the two warning lines on stderr; the iframe HTML is still printed
to stdout and the exit status is 0. -/
theorem oversize_warns_but_succeeds (fs : Fs) (prog audio_path : String)
    (rest : List String) (ov vu : String)
    (hp : parse_args_data rest "pitch,formants" "viewer.html" = DataParse.ok ov vu)
    (hex : fs.exists_file audio_path = true)
    (hsz : 3145728 < 2 * fs.size_bytes audio_path) :
    main_data fs (prog :: audio_path :: rest) =
      ⟨[data_iframe_html vu
          (quote ("data:audio/wav;base64," ++ b64_encode (fs.content audio_path)) "") ov],
        ["Warning: File is " ++ format_mb_1f (fs.size_bytes audio_path) ++
           "MB. Data URLs are limited to ~1.5MB.",
         "Consider using a remote URL instead."], 0⟩ := by
  simp [main_data, hp, create_embedded_viewer_data, hex, hsz]

theorem oversize_warns_but_succeeds_witness :
    parse_args_data [] "pitch,formants" "viewer.html" =
      DataParse.ok "pitch,formants" "viewer.html" ∧
    fs_demo.exists_file "big.wav" = true ∧
    3145728 < 2 * fs_demo.size_bytes "big.wav" ∧
    main_data fs_demo ["create-data-url.py", "big.wav"] =
      ⟨[data_iframe_html "viewer.html"
          (quote ("data:audio/wav;base64," ++ b64_encode (fs_demo.content "big.wav")) "")
          "pitch,formants"],
        ["Warning: File is " ++ format_mb_1f (fs_demo.size_bytes "big.wav") ++
           "MB. Data URLs are limited to ~1.5MB.",
         "Consider using a remote URL instead."], 0⟩ :=
  ⟨rfl, rfl, by decide,
    oversize_warns_but_succeeds fs_demo "create-data-url.py" "big.wav" []
      "pitch,formants" "viewer.html" rfl rfl (by decide)⟩

end OzenWeb
